import Mathlib

/-!
Verification of the asynchronous grading job core of SmarTAI
(`backend/routers/ai_grading.py`, nested-pool version).

The Python code is shallowly embedded: dicts become association lists
over `String` keys, Python floats become exact rationals (every literal
appearing in the code — 0.0, 0.5, 5.0, 10.0 — is an exact binary float,
so no rounding is lost), raising/catching becomes `Except`, and the
opaque grading nodes (`calc_node`, `concept_node`, `proof_node`,
`programming_node`, each closing over an LLM client) become an
environment of functions returning `Except String Correction`.
Thread pools collect futures with `as_completed`; the claims under
study are order-insensitive (counts, membership, field values), so the
collection is modelled sequentially.
-/

namespace SmarTAI

/-- Modelled from the spec: the `Correction` record (`backend.models` is
not in the source tree); its field shape is fixed by every construction
site in `ai_grading.py` and by the spec's serialization
`{q_id, type, score, max_score, confidence, comment}` plus the `steps`
list passed at each call site. -/
structure Correction where
  q_id : String
  type : String
  score : ℚ
  max_score : ℚ
  confidence : ℚ
  comment : String
  steps : List String
deriving DecidableEq

/-- One answer of a student: the `q_id` / `type` / `content` keys read by
`process_student_answer` (keys are modelled as present). -/
structure Answer where
  q_id : String
  type : String
  content : String
deriving DecidableEq

/-- One student record: the `stu_id` / `stu_ans` keys read by the tasks. -/
structure Student where
  stu_id : String
  stu_ans : List Answer
deriving DecidableEq

/-- One problem record: the `criterion` key read for the rubric. -/
structure Problem where
  criterion : String
deriving DecidableEq

/-- `problem_store` (`dependencies.problem_data`): dict from q_id to problem. -/
abbrev ProblemStore := List (String × Problem)

/-- Python `dict.get k` / `store.get(k)`: first binding of the key, `none`
when absent. -/
def dictGet {β : Type} : List (String × β) → String → Option β
  | [], _ => none
  | (k, v) :: rest, key => if k = key then some v else dictGet rest key

/-- Python `store[k] = v`: overwrite the binding when present, append a
fresh binding when absent. -/
def dictSet {β : Type} : List (String × β) → String → β → List (String × β)
  | [], key, v => [(key, v)]
  | (k, w) :: rest, key, v =>
      if k = key then (key, v) :: rest else (k, w) :: dictSet rest key v

/-- `get_processed_rubric` (lines 40–45): the `lru_cache`-memoized rubric
processing, which returns the rubric text as-is. -/
def get_processed_rubric (q_id : String) (rubric_text : String) : String :=
  rubric_text

/-- A step dict placed in the answer unit (`step_no`, `content`, and for
calculation questions a `formula` key). -/
structure AnswerStep where
  step_no : Nat
  content : String
  formula : Option String
deriving DecidableEq

/-- The `answer_unit` dict assembled by `process_student_answer` before
dispatch: always `q_id` and `text`, plus type-specific keys. -/
structure AnswerUnit where
  q_id : String
  text : String
  steps : List AnswerStep := []
  code : Option String := none
  language : Option String := none
  test_cases : List String := []
deriving DecidableEq

/-- The opaque grading nodes (`backend.correct.*`). Each takes the answer
unit, the rubric text and the max score (the LLM client argument is
absorbed into the closure) and may raise — modelled as `Except`. -/
structure GraderEnv where
  calc_node : AnswerUnit → String → ℚ → Except String Correction
  concept_node : AnswerUnit → String → ℚ → Except String Correction
  proof_node : AnswerUnit → String → ℚ → Except String Correction
  programming_node : AnswerUnit → String → ℚ → Except String Correction

/-- `type_mapping` (lines 106–111): Chinese question types to internal
English types. -/
def type_mapping : List (String × String) :=
  [("概念题", "concept"), ("计算题", "calculation"),
   ("证明题", "proof"), ("编程题", "programming")]

/-- The `try:` block of `process_student_answer` (lines 119–183): dispatch
on `internal_type = type_mapping.get(answer_type, "concept")`.  The
"ensure fields" re-checks in the source are identities on the freshly
constructed unit and are folded into the construction.  After a node
returns, `correction.type` is overwritten with the original type. -/
def graded_result (env : GraderEnv) (q_id answer_type content rubric : String)
    (max_score : ℚ) : Except String Correction :=
  let answer_unit : AnswerUnit := { q_id := q_id, text := content }
  let internal_type := (dictGet type_mapping answer_type).getD "concept"
  if internal_type = "calculation" then
    (env.calc_node { answer_unit with steps := [⟨1, content, some ""⟩] }
        rubric max_score).map (fun correction => { correction with type := answer_type })
  else if internal_type = "concept" then
    (env.concept_node answer_unit rubric max_score).map
      (fun correction => { correction with type := answer_type })
  else if internal_type = "proof" then
    (env.proof_node { answer_unit with steps := [⟨1, content, none⟩] }
        rubric max_score).map (fun correction => { correction with type := answer_type })
  else if internal_type = "programming" then
    (env.programming_node
        { answer_unit with code := some content, language := some "python",
                           test_cases := [] }
        rubric max_score).map (fun correction => { correction with type := answer_type })
  else
    Except.ok
      { q_id := q_id, type := answer_type, score := 5, max_score := max_score,
        confidence := 1/2,
        comment := "Unsupported question type: " ++ answer_type, steps := [] }

/-- `process_student_answer` (lines 73–195).  A missing problem yields the
synthesized default correction (the Python falsiness test `if not problem`
fires exactly on absence here, since a looked-up problem is a record);
otherwise the dispatch runs under the `try:`/`except` that converts a
raised exception into the zero-score "Grading error" correction. -/
def process_student_answer (env : GraderEnv) (answer : Answer)
    (problem_store : ProblemStore) : Correction :=
  let q_id := answer.q_id
  let answer_type := answer.type
  let content := answer.content
  match dictGet problem_store q_id with
  | none =>
      { q_id := q_id,
        type := if answer_type = "" then "概念题" else answer_type,
        score := 0, max_score := 10, confidence := 0,
        comment := "Problem " ++ q_id ++ " not found", steps := [] }
  | some problem =>
      let rubric_raw := problem.criterion
      let rubric := get_processed_rubric q_id rubric_raw
      let max_score : ℚ := 10
      match graded_result env q_id answer_type content rubric max_score with
      | Except.ok correction => correction
      | Except.error e =>
          { q_id := q_id, type := answer_type, score := 0, max_score := max_score,
            confidence := 0, comment := "Grading error: " ++ e, steps := [] }

/-- The per-future collection step shared by `process_student_submission`
(lines 219–235) and `run_grading_task` (lines 274–289): `future.result()`
either yields the node's correction or raises, in which case the
`except` arm substitutes the zero-score "Processing error" correction
(`answer.get("q_id", "unknown")` keeps the present key's value here).
The per-answer task is abstracted as `proc`. -/
def answer_task_result (proc : Answer → Except String Correction)
    (answer : Answer) : Correction :=
  match proc answer with
  | Except.ok correction => correction
  | Except.error e =>
      { q_id := answer.q_id, type := answer.type, score := 0, max_score := 10,
        confidence := 0, comment := "Processing error: " ++ e, steps := [] }

/-- The inner thread pool over one student's answers: one collected
correction per submitted answer (completion order modelled as list
order; the claims under study are order-insensitive). -/
def run_answer_tasks (proc : Answer → Except String Correction)
    (answers : List Answer) : List Correction :=
  answers.map (answer_task_result proc)

/-- The per-student result dict `{"student_id": ..., "corrections": ...}`. -/
structure StudentResult where
  student_id : String
  corrections : List Correction
deriving DecidableEq

/-- `process_student_submission` (lines 197–241), generalized over the
per-answer task run in the inner pool; returns `none` for the Python
`return None` on a falsy `stu_id`. -/
def process_student_submission_with (proc : Answer → Except String Correction)
    (student : Student) : Option StudentResult :=
  if student.stu_id = "" then none
  else some { student_id := student.stu_id,
              corrections := run_answer_tasks proc student.stu_ans }

/-- `process_student_submission` with the concrete per-answer task
`process_student_answer` (which is total: it catches grader errors
itself, so the future-level `except` arm is not exercised by it). -/
def process_student_submission (env : GraderEnv) (student : Student)
    (problem_store : ProblemStore) : Option StudentResult :=
  process_student_submission_with
    (fun answer => Except.ok (process_student_answer env answer problem_store)) student

/-- A job's entry in `GRADING_RESULTS`: the four result dict shapes
written by the routers and tasks. -/
inductive JobResult where
  | pending
  | completedSingle (student_id : String) (corrections : List Correction)
  | completedBatch (results : List StudentResult)
  | error (message : String)
deriving DecidableEq

/-- The `GRADING_RESULTS` module-level dict. -/
abbrev JobStore := List (String × JobResult)

/-- Terminal statuses: `completed` (either shape) or `error`. -/
def JobResult.isTerminal : JobResult → Bool
  | pending => false
  | _ => true

/-- `run_grading_task` (lines 243–305), generalized over the per-answer
task: look the student up by id (first match of the `for` loop); if
absent write the error result, otherwise write the completed result with
the collected corrections.  Each path performs exactly one store write. -/
def run_grading_task_with (proc : Answer → Except String Correction)
    (store : JobStore) (job_id student_id : String)
    (student_store : List Student) : JobStore :=
  match student_store.find? (fun student => student.stu_id == student_id) with
  | none =>
      dictSet store job_id
        (JobResult.error ("Student " ++ student_id ++ " not found"))
  | some student_data =>
      dictSet store job_id
        (JobResult.completedSingle student_id
          (run_answer_tasks proc student_data.stu_ans))

/-- `run_grading_task` with the concrete per-answer task. -/
def run_grading_task (env : GraderEnv) (store : JobStore)
    (job_id student_id : String) (problem_store : ProblemStore)
    (student_store : List Student) : JobStore :=
  run_grading_task_with
    (fun answer => Except.ok (process_student_answer env answer problem_store))
    store job_id student_id student_store

/-- `run_batch_grading_task` (lines 307–355), generalized over the
per-student task run in the outer pool: only students with a truthy
(non-empty) `stu_id` are submitted; a student whose task raises is
logged and skipped; a `None` result is skipped by `if result:`; the
collected results are written as the single completed store write. -/
def run_batch_grading_task_with
    (sproc : Student → Except String (Option StudentResult))
    (store : JobStore) (job_id : String)
    (student_store : List Student) : JobStore :=
  let selected := student_store.filter (fun student => student.stu_id != "")
  let all_results := selected.filterMap (fun student =>
    match sproc student with
    | Except.ok result => result
    | Except.error _ => none)
  dictSet store job_id (JobResult.completedBatch all_results)

/-- `run_batch_grading_task` with the concrete per-student task
`process_student_submission`. -/
def run_batch_grading_task (env : GraderEnv) (store : JobStore)
    (job_id : String) (problem_store : ProblemStore)
    (student_store : List Student) : JobStore :=
  run_batch_grading_task_with
    (fun student => Except.ok (process_student_submission env student problem_store))
    store job_id student_store

/-- The registration performed by `start_grading` / `start_batch_grading`
(lines 364–365, 383–384) before the worker thread is started:
`GRADING_RESULTS[job_id] = {"status": "pending"}`. -/
def register_job (store : JobStore) (job_id : String) : JobStore :=
  dictSet store job_id JobResult.pending

/-- Response shape of the polling endpoint: a stored job dict, or the
fallback `{"status": "not_found"}`. -/
inductive GradeResponse where
  | job (result : JobResult)
  | notFound
deriving DecidableEq

/-- `get_grading_result` (lines 399–410):
`GRADING_RESULTS.get(job_id, {"status": "not_found"})`. -/
def get_grading_result (store : JobStore) (job_id : String) : GradeResponse :=
  match dictGet store job_id with
  | some result => GradeResponse.job result
  | none => GradeResponse.notFound

/-- The fixed collaborators a running service closes over: the grader
environment and the two dependency-injected stores. -/
structure Sys where
  env : GraderEnv
  problem_store : ProblemStore
  student_store : List Student

/-- The store-mutating operations of the subsystem: the two submission
endpoints' pending registration, and the two background task bodies. -/
inductive JobOp where
  | submitSingle (job_id student_id : String)
  | submitBatch (job_id : String)
  | runSingle (job_id student_id : String)
  | runBatch (job_id : String)
deriving DecidableEq

/-- The job id an operation writes to. -/
def JobOp.job_id : JobOp → String
  | submitSingle j _ => j
  | submitBatch j => j
  | runSingle j _ => j
  | runBatch j => j

/-- Whether the operation is a submission-endpoint registration. -/
def JobOp.isSubmit : JobOp → Bool
  | submitSingle _ _ => true
  | submitBatch _ => true
  | _ => false

/-- Whether the operation is a background task body. -/
def JobOp.isRun : JobOp → Bool
  | runSingle _ _ => true
  | runBatch _ => true
  | _ => false

/-- Effect of one operation on the job store. -/
def stepOp (sys : Sys) (store : JobStore) : JobOp → JobStore
  | JobOp.submitSingle j _ => register_job store j
  | JobOp.submitBatch j => register_job store j
  | JobOp.runSingle j student_id =>
      run_grading_task sys.env store j student_id sys.problem_store sys.student_store
  | JobOp.runBatch j =>
      run_batch_grading_task sys.env store j sys.problem_store sys.student_store

/-- Sequential interleaving of store operations (each dict write is
atomic in CPython; a trace is one linearization of the writes). -/
def runTrace (sys : Sys) (store : JobStore) : List JobOp → JobStore
  | [] => store
  | op :: rest => runTrace sys (stepOp sys store op) rest

/-! ### Concrete fixtures for witnesses and counterexamples -/

/-- The bound every fallback-path correction is claimed to satisfy. -/
def fallback_correction_ok (c : Correction) : Prop :=
  0 ≤ c.score ∧ c.score ≤ c.max_score ∧ c.confidence = 0

/-- A fixed correction returned by the stub concept node below. -/
def conceptStubCorrection : Correction :=
  { q_id := "q1", type := "internal", score := 7, max_score := 10, confidence := 1,
    comment := "graded by concept node", steps := [] }

/-- Stub grader environment: the concept node succeeds with
`conceptStubCorrection`, every other node raises. -/
def stubEnv : GraderEnv :=
  { calc_node := fun _ _ _ => Except.error "calc failure",
    concept_node := fun _ _ _ => Except.ok conceptStubCorrection,
    proof_node := fun _ _ _ => Except.error "proof failure",
    programming_node := fun _ _ _ => Except.error "programming failure" }

/-- Stub grader environment all of whose nodes raise. -/
def failEnv : GraderEnv :=
  { calc_node := fun _ _ _ => Except.error "boom",
    concept_node := fun _ _ _ => Except.error "boom",
    proof_node := fun _ _ _ => Except.error "boom",
    programming_node := fun _ _ _ => Except.error "boom" }

/-- A per-answer task that always raises (for the future-level arm). -/
def failTask : Answer → Except String Correction :=
  fun _ => Except.error "task failure"

def problem1 : Problem := { criterion := "full marks for x=2" }

def psOne : ProblemStore := [("q1", problem1)]

def answer1 : Answer := { q_id := "q1", type := "概念题", content := "x=2" }

def answer2 : Answer := { q_id := "q2", type := "计算题", content := "y=3" }

def answerOther : Answer := { q_id := "q1", type := "other", content := "ans" }

def student1 : Student := { stu_id := "s1", stu_ans := [answer1, answer2] }

def student2 : Student := { stu_id := "s2", stu_ans := [answer1] }

/-- A per-student task raising for `student2` and delegating to the real
submission processing otherwise. -/
def sprocW : Student → Except String (Option StudentResult) := fun student =>
  if student.stu_id = "s2" then Except.error "student task failure"
  else Except.ok (process_student_submission stubEnv student psOne)

def sysW : Sys := { env := stubEnv, problem_store := psOne, student_store := [student1] }

/-! ### Store lemmas -/

theorem dictGet_dictSet_self {β : Type} (s : List (String × β)) (k : String) (v : β) :
    dictGet (dictSet s k v) k = some v := by
  induction s with
  | nil => simp [dictGet, dictSet]
  | cons hd tl ih =>
      obtain ⟨k', v'⟩ := hd
      by_cases h : k' = k
      · simp [dictSet, h, dictGet]
      · simp [dictSet, h, dictGet, ih]

theorem dictGet_dictSet_ne {β : Type} (s : List (String × β)) (k k' : String) (v : β)
    (h : k' ≠ k) : dictGet (dictSet s k v) k' = dictGet s k' := by
  induction s with
  | nil => simp [dictGet, dictSet, Ne.symm h]
  | cons hd tl ih =>
      obtain ⟨k₁, v₁⟩ := hd
      by_cases h₁ : k₁ = k
      · simp [dictSet, h₁, dictGet, Ne.symm h]
      · simp [dictSet, h₁, dictGet, ih]

theorem length_dictSet_of_none {β : Type} (s : List (String × β)) (k : String) (v : β)
    (h : dictGet s k = none) : (dictSet s k v).length = s.length + 1 := by
  induction s with
  | nil => simp [dictSet]
  | cons hd tl ih =>
      obtain ⟨k₁, v₁⟩ := hd
      by_cases h₁ : k₁ = k
      · simp [dictGet, h₁] at h
      · simp [dictGet, h₁] at h
        simp [dictSet, h₁, ih h]

/-! ### Task-write lemmas -/

theorem run_grading_task_with_frame (proc : Answer → Except String Correction)
    (store : JobStore) (job_id student_id j : String) (students : List Student)
    (h : j ≠ job_id) :
    dictGet (run_grading_task_with proc store job_id student_id students) j
      = dictGet store j := by
  unfold run_grading_task_with
  cases students.find? (fun student => student.stu_id == student_id) with
  | none => exact dictGet_dictSet_ne _ _ _ _ h
  | some student_data => exact dictGet_dictSet_ne _ _ _ _ h

theorem run_batch_grading_task_with_frame
    (sproc : Student → Except String (Option StudentResult))
    (store : JobStore) (job_id j : String) (students : List Student)
    (h : j ≠ job_id) :
    dictGet (run_batch_grading_task_with sproc store job_id students) j
      = dictGet store j := by
  unfold run_batch_grading_task_with
  exact dictGet_dictSet_ne _ _ _ _ h

theorem run_grading_task_with_writes_terminal
    (proc : Answer → Except String Correction) (store : JobStore)
    (job_id student_id : String) (students : List Student) :
    ∃ r, dictGet (run_grading_task_with proc store job_id student_id students) job_id
        = some r ∧ r.isTerminal = true := by
  unfold run_grading_task_with
  cases students.find? (fun student => student.stu_id == student_id) with
  | none => exact ⟨_, dictGet_dictSet_self _ _ _, rfl⟩
  | some student_data => exact ⟨_, dictGet_dictSet_self _ _ _, rfl⟩

theorem run_batch_grading_task_with_writes_terminal
    (sproc : Student → Except String (Option StudentResult)) (store : JobStore)
    (job_id : String) (students : List Student) :
    ∃ r, dictGet (run_batch_grading_task_with sproc store job_id students) job_id
        = some r ∧ r.isTerminal = true := by
  unfold run_batch_grading_task_with
  exact ⟨_, dictGet_dictSet_self _ _ _, rfl⟩

/-! ### Trace lemmas -/

theorem runTrace_append (sys : Sys) (store : JobStore) (t₁ t₂ : List JobOp) :
    runTrace sys store (t₁ ++ t₂) = runTrace sys (runTrace sys store t₁) t₂ := by
  induction t₁ generalizing store with
  | nil => rfl
  | cons op rest ih => simp [runTrace, ih]

theorem stepOp_frame (sys : Sys) (store : JobStore) (op : JobOp) (j : String)
    (h : op.job_id ≠ j) : dictGet (stepOp sys store op) j = dictGet store j := by
  cases op with
  | submitSingle j' student_id =>
      have hne : j ≠ j' := fun h' => h h'.symm
      simp only [stepOp, register_job]
      exact dictGet_dictSet_ne _ _ _ _ hne
  | submitBatch j' =>
      have hne : j ≠ j' := fun h' => h h'.symm
      simp only [stepOp, register_job]
      exact dictGet_dictSet_ne _ _ _ _ hne
  | runSingle j' student_id =>
      have hne : j ≠ j' := fun h' => h h'.symm
      simp only [stepOp, run_grading_task]
      exact run_grading_task_with_frame _ _ _ _ _ _ hne
  | runBatch j' =>
      have hne : j ≠ j' := fun h' => h h'.symm
      simp only [stepOp, run_batch_grading_task]
      exact run_batch_grading_task_with_frame _ _ _ _ _ hne

theorem runTrace_frame (sys : Sys) (store : JobStore) (t : List JobOp) (j : String)
    (h : ∀ op ∈ t, op.job_id ≠ j) :
    dictGet (runTrace sys store t) j = dictGet store j := by
  induction t generalizing store with
  | nil => rfl
  | cons op rest ih =>
      rw [runTrace, ih _ (fun o ho => h o (List.mem_cons_of_mem _ ho)),
        stepOp_frame sys store op j (h op (List.mem_cons_self _ _))]

theorem stepOp_submit_pending (sys : Sys) (store : JobStore) (op : JobOp)
    (h : op.isSubmit = true) :
    dictGet (stepOp sys store op) op.job_id = some JobResult.pending := by
  cases op with
  | submitSingle j student_id => exact dictGet_dictSet_self _ _ _
  | submitBatch j => exact dictGet_dictSet_self _ _ _
  | runSingle j student_id => simp [JobOp.isSubmit] at h
  | runBatch j => simp [JobOp.isSubmit] at h

theorem stepOp_run_terminal (sys : Sys) (store : JobStore) (op : JobOp)
    (h : op.isRun = true) :
    ∃ r, dictGet (stepOp sys store op) op.job_id = some r ∧ r.isTerminal = true := by
  cases op with
  | submitSingle j student_id => simp [JobOp.isRun] at h
  | submitBatch j => simp [JobOp.isRun] at h
  | runSingle j student_id =>
      simp only [stepOp, run_grading_task, JobOp.job_id]
      exact run_grading_task_with_writes_terminal _ _ _ _ _
  | runBatch j =>
      simp only [stepOp, run_batch_grading_task, JobOp.job_id]
      exact run_batch_grading_task_with_writes_terminal _ _ _ _

/-- Splitting an appended " not found" suffix around its "not found" part. -/
theorem exists_not_found_split (p : String) :
    ∃ a b, p ++ " not found" = a ++ "not found" ++ b := by
  refine ⟨p ++ " ", "", ?_⟩
  rw [String.append_empty, String.append_assoc p " " "not found"]
  rfl

/-! ### Claim theorems -/

/-- C10: the memoized rubric-processing function `get_processed_rubric` is
the identity on its second argument for every question id, so routing the
rubric through the process-wide cache changes no grading dispatch result. -/
theorem rubric_cache_is_identity :
    (∀ q_id rubric_text, get_processed_rubric q_id rubric_text = rubric_text)
    ∧ ∀ (env : GraderEnv) (q_id answer_type content rubric : String) (max_score : ℚ),
        graded_result env q_id answer_type content (get_processed_rubric q_id rubric)
            max_score
          = graded_result env q_id answer_type content rubric max_score :=
  ⟨fun _ _ => rfl, fun _ _ _ _ _ _ => rfl⟩

/-- C8: the polling endpoint `get_grading_result` is a pure read of the
current store state: an absent job id yields exactly the `not_found`
response, and a present one yields exactly the stored job state. -/
theorem polling_reads_committed_state (store : JobStore) (job_id : String) :
    (dictGet store job_id = none →
        get_grading_result store job_id = GradeResponse.notFound)
    ∧ ∀ r, dictGet store job_id = some r →
        get_grading_result store job_id = GradeResponse.job r := by
  constructor
  · intro h
    simp [get_grading_result, h]
  · intro r h
    simp [get_grading_result, h]

/-- Witness for C8 at a concrete empty store and a concrete one-job store. -/
theorem polling_reads_committed_state_witness :
    get_grading_result [] "j1" = GradeResponse.notFound
    ∧ get_grading_result [("j2", JobResult.pending)] "j2"
        = GradeResponse.job JobResult.pending :=
  ⟨(polling_reads_committed_state [] "j1").1 rfl,
   (polling_reads_committed_state [("j2", JobResult.pending)] "j2").2
      JobResult.pending rfl⟩

/-- C5: an answer whose question id is absent from the problem store gets
the synthesized default correction — score 0, max_score 10, confidence 0,
comment containing "not found" — instead of aborting. -/
theorem missing_problem_default_correction (env : GraderEnv) (answer : Answer)
    (problem_store : ProblemStore)
    (h : dictGet problem_store answer.q_id = none) :
    process_student_answer env answer problem_store =
      { q_id := answer.q_id,
        type := if answer.type = "" then "概念题" else answer.type,
        score := 0, max_score := 10, confidence := 0,
        comment := "Problem " ++ answer.q_id ++ " not found", steps := [] }
    ∧ ∃ a b, (process_student_answer env answer problem_store).comment
        = a ++ "not found" ++ b := by
  constructor
  · simp [process_student_answer, h]
  · simp only [process_student_answer, h]
    exact exists_not_found_split ("Problem " ++ answer.q_id)

/-- Witness for C5: grading `answer1` against an empty problem store. -/
theorem missing_problem_default_correction_witness :
    process_student_answer stubEnv answer1 [] =
      { q_id := answer1.q_id,
        type := if answer1.type = "" then "概念题" else answer1.type,
        score := 0, max_score := 10, confidence := 0,
        comment := "Problem " ++ answer1.q_id ++ " not found", steps := [] }
    ∧ ∃ a b, (process_student_answer stubEnv answer1 []).comment
        = a ++ "not found" ++ b :=
  missing_problem_default_correction stubEnv answer1 [] rfl

/-- C7: when the requested student id matches no student in the store, the
single-student task immediately writes an error result whose message
contains "not found", and polling that job id returns it. -/
theorem unknown_student_job_error (env : GraderEnv) (store : JobStore)
    (job_id student_id : String) (problem_store : ProblemStore)
    (students : List Student)
    (h : ∀ s ∈ students, s.stu_id ≠ student_id) :
    ∃ msg,
      dictGet (run_grading_task env store job_id student_id problem_store students)
          job_id
        = some (JobResult.error msg)
      ∧ get_grading_result
          (run_grading_task env store job_id student_id problem_store students) job_id
        = GradeResponse.job (JobResult.error msg)
      ∧ ∃ a b, msg = a ++ "not found" ++ b := by
  have hfind : students.find? (fun student => student.stu_id == student_id) = none := by
    rw [List.find?_eq_none]
    intro s hs
    simpa using h s hs
  refine ⟨"Student " ++ student_id ++ " not found", ?_, ?_,
    exists_not_found_split ("Student " ++ student_id)⟩
  · simp [run_grading_task, run_grading_task_with, hfind, dictGet_dictSet_self]
  · simp [get_grading_result, run_grading_task, run_grading_task_with, hfind,
      dictGet_dictSet_self]

/-- Witness for C7: submitting an unknown student id against the one-student
store. -/
theorem unknown_student_job_error_witness :
    ∃ msg,
      dictGet (run_grading_task stubEnv [] "j1" "ghost" psOne [student1]) "j1"
        = some (JobResult.error msg)
      ∧ get_grading_result (run_grading_task stubEnv [] "j1" "ghost" psOne [student1])
          "j1"
        = GradeResponse.job (JobResult.error msg)
      ∧ ∃ a b, msg = a ++ "not found" ++ b :=
  unknown_student_job_error stubEnv [] "j1" "ghost" psOne [student1] (by decide)

/-- C6 counterexample: the scheduler's terminal completed write on a job id
absent from the (empty) store is not a no-op — it creates the entry. -/
theorem set_result_unknown_noop_false :
    run_batch_grading_task stubEnv [] "j1" [] [] ≠ ([] : JobStore)
    ∧ dictGet (run_batch_grading_task stubEnv [] "j1" [] []) "j1"
        = some (JobResult.completedBatch []) := by
  decide

/-- C6 amended: the scheduler's terminal write is an unconditional dict
assignment — for a job id not in the store, both the batch task's completed
write and the single task's terminal write create a fresh entry (store
grows by one) holding the written result. -/
theorem set_result_unknown_inserts (env : GraderEnv) (store : JobStore)
    (job_id : String) (problem_store : ProblemStore) (students : List Student)
    (h : dictGet store job_id = none) :
    (∃ results,
      dictGet (run_batch_grading_task env store job_id problem_store students) job_id
        = some (JobResult.completedBatch results)
      ∧ (run_batch_grading_task env store job_id problem_store students).length
        = store.length + 1)
    ∧ ∀ student_id, ∃ r,
        dictGet (run_grading_task env store job_id student_id problem_store students)
            job_id
          = some r
        ∧ (run_grading_task env store job_id student_id problem_store students).length
          = store.length + 1 := by
  constructor
  · refine ⟨(students.filter (fun student => student.stu_id != "")).filterMap
        (fun student => process_student_submission env student problem_store),
      ?_, ?_⟩
    · simp only [run_batch_grading_task, run_batch_grading_task_with]
      exact dictGet_dictSet_self _ _ _
    · simp only [run_batch_grading_task, run_batch_grading_task_with]
      exact length_dictSet_of_none _ _ _ h
  · intro student_id
    simp only [run_grading_task, run_grading_task_with]
    cases students.find? (fun student => student.stu_id == student_id) with
    | none =>
        exact ⟨_, dictGet_dictSet_self _ _ _, length_dictSet_of_none _ _ _ h⟩
    | some student_data =>
        exact ⟨_, dictGet_dictSet_self _ _ _, length_dictSet_of_none _ _ _ h⟩

/-- Witness for amended C6 at the empty store. -/
theorem set_result_unknown_inserts_witness :
    (∃ results,
      dictGet (run_batch_grading_task stubEnv [] "j9" psOne [student1]) "j9"
        = some (JobResult.completedBatch results)
      ∧ (run_batch_grading_task stubEnv [] "j9" psOne [student1]).length
        = ([] : JobStore).length + 1)
    ∧ ∀ student_id, ∃ r,
        dictGet (run_grading_task stubEnv [] "j9" student_id psOne [student1]) "j9"
          = some r
        ∧ (run_grading_task stubEnv [] "j9" student_id psOne [student1]).length
          = ([] : JobStore).length + 1 :=
  set_result_unknown_inserts stubEnv [] "j9" psOne [student1] rfl

/-- C4 counterexample: for the declared type "other" (with the question
present in the store) the code does not return the claimed neutral default
with `score = 0.5 × max_score` and an "Unsupported question type" comment:
it dispatches to the concept node and returns that node's correction with
the type field overwritten. -/
theorem unsupported_type_default_claim_false :
    process_student_answer stubEnv answerOther psOne
      = { conceptStubCorrection with type := "other" }
    ∧ (process_student_answer stubEnv answerOther psOne).score
        ≠ 1/2 * (process_student_answer stubEnv answerOther psOne).max_score
    ∧ (process_student_answer stubEnv answerOther psOne).comment
        ≠ "Unsupported question type: other" := by
  have hres : process_student_answer stubEnv answerOther psOne
      = { conceptStubCorrection with type := "other" } := rfl
  refine ⟨hres, ?_, ?_⟩
  · rw [hres]
    norm_num [conceptStubCorrection]
  · rw [hres]
    decide

/-- C4 amended: "other" and every type outside the dispatch table is mapped
by `type_mapping.get(answer_type, "concept")` to the internal type
"concept", so such answers are graded by the concept node (with the
declared type restored on the result, and the node's exception converted
to the zero-score "Grading error" correction); the neutral
`0.5 × max_score` default branch is unreachable. -/
theorem unrecognized_type_dispatches_to_concept (env : GraderEnv) (answer : Answer)
    (problem_store : ProblemStore) (problem : Problem)
    (hp : dictGet problem_store answer.q_id = some problem)
    (ht : dictGet type_mapping answer.type = none) :
    process_student_answer env answer problem_store =
      match (env.concept_node { q_id := answer.q_id, text := answer.content }
              (get_processed_rubric answer.q_id problem.criterion) 10).map
              (fun correction => { correction with type := answer.type }) with
      | Except.ok correction => correction
      | Except.error e =>
          { q_id := answer.q_id, type := answer.type, score := 0, max_score := 10,
            confidence := 0, comment := "Grading error: " ++ e, steps := [] } := by
  simp only [process_student_answer, hp]
  simp only [graded_result, ht, Option.getD_none]
  rfl

/-- Witness for amended C4: the "other"-typed answer ends up at the stub
concept node. -/
theorem unrecognized_type_dispatches_to_concept_witness :
    process_student_answer stubEnv answerOther psOne =
      match (stubEnv.concept_node
              { q_id := answerOther.q_id, text := answerOther.content }
              (get_processed_rubric answerOther.q_id problem1.criterion) 10).map
              (fun correction => { correction with type := answerOther.type }) with
      | Except.ok correction => correction
      | Except.error e =>
          { q_id := answerOther.q_id, type := answerOther.type, score := 0,
            max_score := 10, confidence := 0,
            comment := "Grading error: " ++ e, steps := [] } :=
  unrecognized_type_dispatches_to_concept stubEnv answerOther psOne problem1
    (by decide) (by decide)

/-- C2: a grader exception for one answer is caught at single-answer
granularity and replaced by the zero-score correction carrying the
exception text; every student submission still yields one correction per
answer, and the single-student job still reaches the completed status. -/
theorem grader_failure_isolated (env : GraderEnv) (problem_store : ProblemStore)
    (answer : Answer) (problem : Problem) (e : String)
    (hp : dictGet problem_store answer.q_id = some problem)
    (he : graded_result env answer.q_id answer.type answer.content
            (get_processed_rubric answer.q_id problem.criterion) 10
          = Except.error e) :
    process_student_answer env answer problem_store =
      { q_id := answer.q_id, type := answer.type, score := 0, max_score := 10,
        confidence := 0, comment := "Grading error: " ++ e, steps := [] }
    ∧ (∀ student : Student, student.stu_id ≠ "" →
        ∃ result, process_student_submission env student problem_store = some result
          ∧ result.corrections.length = student.stu_ans.length)
    ∧ ∀ (store : JobStore) (job_id : String) (students : List Student)
        (student : Student),
        students.find? (fun s => s.stu_id == student.stu_id) = some student →
        ∃ corrections,
          dictGet
              (run_grading_task env store job_id student.stu_id problem_store students)
              job_id
            = some (JobResult.completedSingle student.stu_id corrections)
          ∧ corrections.length = student.stu_ans.length := by
  refine ⟨?_, ?_, ?_⟩
  · simp only [process_student_answer, hp]
    rw [he]
  · intro student hs
    refine ⟨{ student_id := student.stu_id,
              corrections := run_answer_tasks
                (fun a => Except.ok (process_student_answer env a problem_store))
                student.stu_ans }, ?_, ?_⟩
    · simp [process_student_submission, process_student_submission_with, hs]
    · simp [run_answer_tasks]
  · intro store job_id students student hfind
    simp only [run_grading_task, run_grading_task_with, hfind]
    exact ⟨_, dictGet_dictSet_self _ _ _, by simp [run_answer_tasks]⟩

/-- Witness for C2: every node of `failEnv` raises "boom"; the two-answer
student still gets two corrections and a completed job. -/
theorem grader_failure_isolated_witness :
    process_student_answer failEnv answer1 psOne =
      { q_id := answer1.q_id, type := answer1.type, score := 0, max_score := 10,
        confidence := 0, comment := "Grading error: " ++ "boom", steps := [] }
    ∧ (∃ result, process_student_submission failEnv student1 psOne = some result
        ∧ result.corrections.length = student1.stu_ans.length)
    ∧ ∃ corrections,
        dictGet (run_grading_task failEnv [] "j1" student1.stu_id psOne [student1])
            "j1"
          = some (JobResult.completedSingle student1.stu_id corrections)
        ∧ corrections.length = student1.stu_ans.length := by
  obtain ⟨h1, h2, h3⟩ :=
    grader_failure_isolated failEnv psOne answer1 problem1 "boom" (by decide) rfl
  exact ⟨h1, h2 student1 (by decide),
    h3 [] "j1" [student1] student1 (by decide)⟩

/-- C9: every correction produced by a fallback path — problem-not-found,
grader exception, future-level processing failure — has
`0 ≤ score ≤ max_score` and confidence 0; the fourth fallback path of the
spec (the "unsupported type" default) produces no correction at all, since
`type_mapping.get(answer_type, "concept")` always lands in the dispatch
table. -/
theorem fallback_corrections_bounded :
    (∀ (env : GraderEnv) (answer : Answer) (problem_store : ProblemStore),
        dictGet problem_store answer.q_id = none →
        fallback_correction_ok (process_student_answer env answer problem_store))
    ∧ (∀ (env : GraderEnv) (answer : Answer) (problem_store : ProblemStore)
          (problem : Problem) (e : String),
        dictGet problem_store answer.q_id = some problem →
        graded_result env answer.q_id answer.type answer.content
            (get_processed_rubric answer.q_id problem.criterion) 10
          = Except.error e →
        fallback_correction_ok (process_student_answer env answer problem_store))
    ∧ (∀ (proc : Answer → Except String Correction) (answer : Answer) (e : String),
        proc answer = Except.error e →
        fallback_correction_ok (answer_task_result proc answer))
    ∧ ∀ answer_type : String,
        (dictGet type_mapping answer_type).getD "concept"
          ∈ (["concept", "calculation", "proof", "programming"] : List String) := by
  refine ⟨?_, ?_, ?_, ?_⟩
  · intro env answer problem_store h
    simp only [process_student_answer, h]
    norm_num [fallback_correction_ok]
  · intro env answer problem_store problem e hp he
    simp only [process_student_answer, hp]
    rw [he]
    norm_num [fallback_correction_ok]
  · intro proc answer e he
    simp only [answer_task_result, he]
    norm_num [fallback_correction_ok]
  · intro answer_type
    simp only [type_mapping, dictGet]
    split_ifs <;> simp

/-- Witness for C9: the three guarded fallback paths exercised at concrete
inputs. -/
theorem fallback_corrections_bounded_witness :
    fallback_correction_ok (process_student_answer failEnv answer1 [])
    ∧ fallback_correction_ok (process_student_answer failEnv answer1 psOne)
    ∧ fallback_correction_ok (answer_task_result failTask answer1) :=
  ⟨fallback_corrections_bounded.1 failEnv answer1 [] rfl,
   fallback_corrections_bounded.2.1 failEnv answer1 psOne problem1 "boom"
     (by decide) rfl,
   fallback_corrections_bounded.2.2.1 failTask answer1 "task failure" rfl⟩

/-- A list mapped-and-filtered past an element sent to `none` has strictly
fewer entries than the list. -/
theorem length_filterMap_lt_of_mem_none {α β : Type} (f : α → Option β)
    (l : List α) (a : α) (ha : a ∈ l) (hfa : f a = none) :
    (l.filterMap f).length < l.length := by
  induction l with
  | nil => cases ha
  | cons b t ih =>
      rcases List.mem_cons.mp ha with hb | ht
      · subst hb
        rw [List.filterMap_cons_none hfa]
        exact Nat.lt_succ_of_le (List.length_filterMap_le f t)
      · cases hfb : f b with
        | none =>
            rw [List.filterMap_cons_none hfb]
            exact Nat.lt_succ_of_lt (ih ht)
        | some c =>
            rw [List.filterMap_cons_some hfb]
            simpa using ih ht

/-- C3: a batch job always completes; its results list has at most one
entry per student, every entry stems from a student with a non-empty id
and carries exactly one correction per answer of that student; and under
an arbitrary per-student task the results are exactly the successful
tasks' entries — every produced entry originates from a student whose
task returned a result, so a student whose task raises contributes no
entry and strictly lowers the result count below the eligible-student
count, while the job still completes. -/
theorem batch_results_shape (env : GraderEnv) (problem_store : ProblemStore)
    (store : JobStore) (job_id : String) (students : List Student)
    (sproc : Student → Except String (Option StudentResult)) :
    (∃ results,
      dictGet (run_batch_grading_task env store job_id problem_store students) job_id
        = some (JobResult.completedBatch results)
      ∧ results.length ≤ students.length
      ∧ ∀ r ∈ results, ∃ s, s ∈ students ∧ s.stu_id ≠ ""
          ∧ r.student_id = s.stu_id
          ∧ r.corrections.length = s.stu_ans.length)
    ∧ ∃ results,
      dictGet (run_batch_grading_task_with sproc store job_id students) job_id
        = some (JobResult.completedBatch results)
      ∧ results = (students.filter (fun student => student.stu_id != "")).filterMap
          (fun student =>
            match sproc student with
            | Except.ok result => result
            | Except.error _ => none)
      ∧ results.length ≤ students.length
      ∧ (∀ r ∈ results, ∃ s, s ∈ students ∧ s.stu_id ≠ ""
          ∧ sproc s = Except.ok (some r))
      ∧ ∀ s e, s ∈ students → s.stu_id ≠ "" → sproc s = Except.error e →
          results.length
            < (students.filter (fun student => student.stu_id != "")).length := by
  constructor
  · refine ⟨(students.filter (fun student => student.stu_id != "")).filterMap
        (fun student => process_student_submission env student problem_store),
      ?_, ?_, ?_⟩
    · simp only [run_batch_grading_task, run_batch_grading_task_with]
      exact dictGet_dictSet_self _ _ _
    · exact le_trans (List.length_filterMap_le _ _) (List.length_filter_le _ _)
    · intro r hr
      obtain ⟨s, hsmem, hsr⟩ := List.mem_filterMap.mp hr
      obtain ⟨hs, hid⟩ := List.mem_filter.mp hsmem
      have hid' : s.stu_id ≠ "" := by simpa using hid
      refine ⟨s, hs, hid', ?_, ?_⟩
      · simp [process_student_submission, process_student_submission_with, hid'] at hsr
        rw [← hsr]
      · simp [process_student_submission, process_student_submission_with, hid'] at hsr
        rw [← hsr]
        simp [run_answer_tasks]
  · refine ⟨(students.filter (fun student => student.stu_id != "")).filterMap
        (fun student =>
          match sproc student with
          | Except.ok result => result
          | Except.error _ => none), ?_, rfl, ?_, ?_, ?_⟩
    · simp only [run_batch_grading_task_with]
      exact dictGet_dictSet_self _ _ _
    · exact le_trans (List.length_filterMap_le _ _) (List.length_filter_le _ _)
    · intro r hr
      obtain ⟨s, hsmem, hsr⟩ := List.mem_filterMap.mp hr
      obtain ⟨hs, hid⟩ := List.mem_filter.mp hsmem
      refine ⟨s, hs, by simpa using hid, ?_⟩
      cases hse : sproc s with
      | ok result =>
          rw [hse] at hsr
          simp only at hsr
          rw [hsr]
      | error e =>
          rw [hse] at hsr
          simp at hsr
    · intro s e hs hid hse
      have hsel : s ∈ students.filter (fun student => student.stu_id != "") :=
        List.mem_filter.mpr ⟨hs, by simpa using hid⟩
      exact length_filterMap_lt_of_mem_none _ _ _ hsel (by simp [hse])

/-- Witness for C3: against a per-student task that raises for `student2`
and succeeds for `student1`, the batch job completes with every entry
coming from a succeeding student and strictly fewer entries than the two
eligible students. -/
theorem batch_results_shape_witness :
    ∃ results,
      dictGet (run_batch_grading_task_with sprocW [] "jb" [student1, student2]) "jb"
        = some (JobResult.completedBatch results)
      ∧ (∀ r ∈ results, ∃ s, s ∈ [student1, student2] ∧ s.stu_id ≠ ""
          ∧ sprocW s = Except.ok (some r))
      ∧ results.length
          < (List.filter (fun student => student.stu_id != "")
              [student1, student2]).length := by
  obtain ⟨-, results, hget, -, -, hmem, hlt⟩ :=
    batch_results_shape stubEnv psOne [] "jb" [student1, student2] sprocW
  exact ⟨results, hget, hmem,
    hlt student2 "student task failure" (by decide) (by decide) rfl⟩

/-- C1: in any operation interleaving in which a job id is registered once
by a submission endpoint and written once by its task body (every other
operation targeting distinct job ids), the job is `pending` from
registration up to the task's terminal write, that write installs exactly
one terminal status (completed or error, never `pending`), and the status
never changes afterwards. -/
theorem job_lifecycle (sys : Sys) (store₀ : JobStore)
    (pre mid post : List JobOp) (opSub opRun : JobOp) (j : String)
    (hSub : opSub.isSubmit = true) (hjS : opSub.job_id = j)
    (hRun : opRun.isRun = true) (hjR : opRun.job_id = j)
    (hpre : ∀ op ∈ pre, op.job_id ≠ j) (hmid : ∀ op ∈ mid, op.job_id ≠ j)
    (hpost : ∀ op ∈ post, op.job_id ≠ j) :
    dictGet (runTrace sys store₀ (pre ++ opSub :: mid)) j = some JobResult.pending
    ∧ ∃ r, r.isTerminal = true ∧ r ≠ JobResult.pending
      ∧ dictGet (runTrace sys store₀ ((pre ++ opSub :: mid) ++ [opRun])) j = some r
      ∧ dictGet (runTrace sys store₀ (((pre ++ opSub :: mid) ++ [opRun]) ++ post)) j
        = some r := by
  have hsplit : runTrace sys store₀ (pre ++ opSub :: mid)
      = runTrace sys (stepOp sys (runTrace sys store₀ pre) opSub) mid := by
    rw [runTrace_append]
    rfl
  have hpending : dictGet (runTrace sys store₀ (pre ++ opSub :: mid)) j
      = some JobResult.pending := by
    rw [hsplit, runTrace_frame sys _ mid j hmid]
    have := stepOp_submit_pending sys (runTrace sys store₀ pre) opSub hSub
    rwa [hjS] at this
  refine ⟨hpending, ?_⟩
  obtain ⟨r, hr, hterm⟩ :=
    stepOp_run_terminal sys (runTrace sys store₀ (pre ++ opSub :: mid)) opRun hRun
  rw [hjR] at hr
  have hrun : dictGet (runTrace sys store₀ ((pre ++ opSub :: mid) ++ [opRun])) j
      = some r := by
    rw [runTrace_append]
    exact hr
  refine ⟨r, hterm, ?_, hrun, ?_⟩
  · intro hpend
    rw [hpend] at hterm
    simp [JobResult.isTerminal] at hterm
  · rw [runTrace_append, runTrace_frame sys _ post j hpost]
    exact hrun

/-- Witness for C1: submit then run a single-student job `"j1"`, with an
unrelated batch job's operations afterwards. -/
theorem job_lifecycle_witness :
    dictGet (runTrace sysW [] ([] ++ JobOp.submitSingle "j1" "s1" :: [])) "j1"
      = some JobResult.pending
    ∧ ∃ r, r.isTerminal = true ∧ r ≠ JobResult.pending
      ∧ dictGet (runTrace sysW []
            (([] ++ JobOp.submitSingle "j1" "s1" :: []) ++ [JobOp.runSingle "j1" "s1"]))
          "j1" = some r
      ∧ dictGet (runTrace sysW []
            ((([] ++ JobOp.submitSingle "j1" "s1" :: []) ++ [JobOp.runSingle "j1" "s1"])
              ++ [JobOp.submitBatch "j2", JobOp.runBatch "j2"])) "j1" = some r :=
  job_lifecycle sysW [] [] [] [JobOp.submitBatch "j2", JobOp.runBatch "j2"]
    (JobOp.submitSingle "j1" "s1") (JobOp.runSingle "j1" "s1") "j1"
    rfl rfl rfl rfl (by simp) (by simp) (by decide)

end SmarTAI
